import Mathlib

/-!
Shallow embedding of the elicitation demo MCP server
(source file examples/elicitation/server.py) and of the DHI
migration-info server (source file dhi_mcp_server/server.py).

Python JSON-like values are embedded as `JValue`.  Each tool's
`requestedSchema` dict literal is transcribed as a `JValue`; the
construction of the elicitation request and the branching the tool
performs on the elicitation result are embedded as pure functions.
-/

namespace Elicitation

/-- A Python/JSON value as the server manipulates them: booleans,
integers, strings, lists and string-keyed dicts (kept as association
lists in insertion order, as Python dicts are ordered). -/
inductive JValue where
  | jbool : Bool → JValue
  | jint : Int → JValue
  | jstr : String → JValue
  | jarr : List JValue → JValue
  | jobj : List (String × JValue) → JValue

/-- Lookup in an association list by key: Python `d.get(key)` /
`key in d` on a dict literal. -/
def alookup {α : Type} : List (String × α) → String → Option α
  | [], _ => none
  | (k, v) :: rest, key => if k == key then some v else alookup rest key

/-- Python `d.get(key, dflt)`. -/
def pyGet (c : List (String × JValue)) (key : String) (dflt : JValue) : JValue :=
  (alookup c key).getD dflt

/-- Python truthiness of a value (`if content.get(...)`). -/
def JValue.truthy : JValue → Bool
  | .jbool b => b
  | .jint n => n != 0
  | .jstr s => s != ""
  | .jarr xs => !xs.isEmpty
  | .jobj fs => !fs.isEmpty

mutual

/-- Python `repr` of a value, as `str` uses it inside containers. -/
def JValue.pyrepr : JValue → String
  | .jbool true => "True"
  | .jbool false => "False"
  | .jint n => toString n
  | .jstr s => "'" ++ s ++ "'"
  | .jarr xs => "[" ++ pyreprItems xs ++ "]"
  | .jobj fs => "\x7b" ++ pyreprPairs fs ++ "\x7d"

/-- Comma-joined `repr`s of the items of a Python list. -/
def pyreprItems : List JValue → String
  | [] => ""
  | [v] => v.pyrepr
  | v :: rest => v.pyrepr ++ ", " ++ pyreprItems rest

/-- Comma-joined `repr`s of the pairs of a Python dict. -/
def pyreprPairs : List (String × JValue) → String
  | [] => ""
  | [(k, v)] => "'" ++ k ++ "': " ++ v.pyrepr
  | (k, v) :: rest => "'" ++ k ++ "': " ++ v.pyrepr ++ ", " ++ pyreprPairs rest

end

/-- Python `str` of a value: a string renders bare, anything else as `repr`. -/
def JValue.pystr : JValue → String
  | .jstr s => s
  | v => v.pyrepr

/-- One character of a JSON-escaped string (`json.dumps`). -/
def jsonEscapeChar (c : Char) : String :=
  if c = '\"' then "\\\""
  else if c = '\\' then "\\\\"
  else if c = '\n' then "\\n"
  else if c = '\t' then "\\t"
  else if c = '\r' then "\\r"
  else String.singleton c

/-- A JSON string literal with its double quotes (`json.dumps`). -/
def jsonQuote (s : String) : String :=
  "\"" ++ String.join (s.toList.map jsonEscapeChar) ++ "\""

/-- `n` spaces, for `json.dumps(..., indent=2)`. -/
def spacesOf : Nat → String
  | 0 => ""
  | n + 1 => " " ++ spacesOf n

mutual

/-- `json.dumps` of one value at indentation `ind` (with `indent=2`,
Python separators `(",", ": ")`). -/
def jsonVal (ind : Nat) : JValue → String
  | .jbool true => "true"
  | .jbool false => "false"
  | .jint n => toString n
  | .jstr s => jsonQuote s
  | .jarr [] => "[]"
  | .jarr (x :: xs) =>
      "[\n" ++ jsonItems (ind + 2) (x :: xs) ++ "\n" ++ spacesOf ind ++ "]"
  | .jobj [] => "\x7b\x7d"
  | .jobj (f :: fs) =>
      "\x7b\n" ++ jsonPairs (ind + 2) (f :: fs) ++ "\n" ++ spacesOf ind ++ "\x7d"

/-- The lines of a JSON array body. -/
def jsonItems (ind : Nat) : List JValue → String
  | [] => ""
  | [v] => spacesOf ind ++ jsonVal ind v
  | v :: rest => spacesOf ind ++ jsonVal ind v ++ ",\n" ++ jsonItems ind rest

/-- The lines of a JSON object body. -/
def jsonPairs (ind : Nat) : List (String × JValue) → String
  | [] => ""
  | [(k, v)] => spacesOf ind ++ jsonQuote k ++ ": " ++ jsonVal ind v
  | (k, v) :: rest =>
      spacesOf ind ++ jsonQuote k ++ ": " ++ jsonVal ind v ++ ",\n" ++ jsonPairs ind rest

end

/-- Python `json.dumps(content, indent=2)` on a dict. -/
def jsonDumps (c : List (String × JValue)) : String := jsonVal 0 (.jobj c)

/-- What `ctx.session.elicit` / `ctx.session.elicit_url` is handed: a
form elicitation carries a `requestedSchema`, a URL elicitation carries
a `url` and an `elicitation_id`. -/
structure ElicitRequest where
  message : String
  requestedSchema : Option JValue := none
  url : Option String := none
  elicitation_id : Option String := none

/-- What `ctx.session.elicit` resolves to: an action tag
("accept" / "decline" / "cancel") and optional content. -/
structure ElicitResult where
  action : String
  content : Option (List (String × JValue)) := none

/-- Python `result.content or {}`: `None` (and the empty dict) become
the empty dict. -/
def contentOrEmpty (c : Option (List (String × JValue))) : List (String × JValue) :=
  c.getD []

/-! ## confirm_action -/

/-- The `requestedSchema` dict literal of `confirm_action`. -/
def confirm_action_schema : JValue :=
  .jobj [
    ("type", .jstr "object"),
    ("properties", .jobj [
      ("confirmed", .jobj [
        ("type", .jstr "boolean"),
        ("description", .jstr "Confirm this action"),
        ("default", .jbool false)]),
      ("reason", .jobj [
        ("type", .jstr "string"),
        ("description", .jstr "Optional reason for your decision")])])]

/-- The elicitation request `confirm_action` sends. -/
def confirm_action_request (action : String) : ElicitRequest :=
  { message := "Are you sure you want to proceed with: " ++ action ++ "?",
    requestedSchema := some confirm_action_schema }

/-- The result string `confirm_action` returns, as a function of the
elicitation result. -/
def confirm_action_run (action : String) (result : ElicitResult) : String :=
  if result.action == "accept" then
    let content := contentOrEmpty result.content
    if (pyGet content "confirmed" (.jbool false)).truthy then
      let reason := pyGet content "reason" (.jstr "")
      let reason_text := if reason.truthy then " Reason: " ++ reason.pystr else ""
      "✅ Action confirmed: " ++ action ++ "." ++ reason_text
    else
      "❌ Action declined: " ++ action
  else
    "⚠️ Confirmation cancelled for: " ++ action

/-! ## create_user -/

/-- The `requestedSchema` dict literal of `create_user`. -/
def create_user_schema : JValue :=
  .jobj [
    ("type", .jstr "object"),
    ("properties", .jobj [
      ("username", .jobj [
        ("type", .jstr "string"),
        ("description", .jstr "Username (3-20 characters)"),
        ("minLength", .jint 3),
        ("maxLength", .jint 20)]),
      ("email", .jobj [
        ("type", .jstr "string"),
        ("description", .jstr "Email address"),
        ("format", .jstr "email")]),
      ("role", .jobj [
        ("type", .jstr "string"),
        ("description", .jstr "User role"),
        ("enum", .jarr [.jstr "admin", .jstr "editor", .jstr "viewer"])]),
      ("bio", .jobj [
        ("type", .jstr "string"),
        ("description", .jstr "Short bio (optional)")]),
      ("active", .jobj [
        ("type", .jstr "boolean"),
        ("description", .jstr "Account active"),
        ("default", .jbool true)])]),
    ("required", .jarr [.jstr "username", .jstr "email", .jstr "role"])]

/-- The elicitation request `create_user` sends. -/
def create_user_request : ElicitRequest :=
  { message := "Please provide the new user details:",
    requestedSchema := some create_user_schema }

/-- The result string `create_user` returns. -/
def create_user_run (result : ElicitResult) : String :=
  if result.action == "accept" then
    let content := contentOrEmpty result.content
    "✅ User created successfully!\n\nUser details:\n" ++ jsonDumps content
  else
    "❌ User creation cancelled."

/-! ## configure_settings -/

/-- One row of the preset table: the three ints of each preset dict. -/
structure ConfigDefaults where
  max_connections : Int
  timeout : Int
  retry_count : Int
  deriving Repr, DecidableEq

/-- The preset-name-to-defaults dict literal of `configure_settings`. -/
def preset_table : List (String × ConfigDefaults) :=
  [("default", { max_connections := 10, timeout := 30, retry_count := 3 }),
   ("performance", { max_connections := 100, timeout := 5, retry_count := 1 }),
   ("reliable", { max_connections := 5, timeout := 60, retry_count := 5 })]

/-- `{...}.get(preset, {"max_connections": 10, "timeout": 30, "retry_count": 3})`. -/
def configure_defaults (preset : String) : ConfigDefaults :=
  (alookup preset_table preset).getD
    { max_connections := 10, timeout := 30, retry_count := 3 }

/-- The `requestedSchema` dict literal of `configure_settings`, as a
function of the selected defaults. -/
def configure_settings_schema_of (defaults : ConfigDefaults) : JValue :=
  .jobj [
    ("type", .jstr "object"),
    ("properties", .jobj [
      ("max_connections", .jobj [
        ("type", .jstr "integer"),
        ("description", .jstr "Maximum concurrent connections (1-100)"),
        ("minimum", .jint 1),
        ("maximum", .jint 100),
        ("default", .jint defaults.max_connections)]),
      ("timeout", .jobj [
        ("type", .jstr "number"),
        ("description", .jstr "Request timeout in seconds (1-300)"),
        ("minimum", .jint 1),
        ("maximum", .jint 300),
        ("default", .jint defaults.timeout)]),
      ("retry_count", .jobj [
        ("type", .jstr "integer"),
        ("description", .jstr "Number of retries (0-10)"),
        ("minimum", .jint 0),
        ("maximum", .jint 10),
        ("default", .jint defaults.retry_count)])]),
    ("required", .jarr [.jstr "max_connections", .jstr "timeout"])]

/-- The `requestedSchema` `configure_settings` sends for a preset. -/
def configure_settings_schema (preset : String) : JValue :=
  configure_settings_schema_of (configure_defaults preset)

/-- The elicitation request `configure_settings` sends. -/
def configure_settings_request (preset : String) : ElicitRequest :=
  { message := "Configure settings (preset: " ++ preset ++ "):",
    requestedSchema := some (configure_settings_schema preset) }

/-- The result string `configure_settings` returns. -/
def configure_settings_run (result : ElicitResult) : String :=
  if result.action == "accept" then
    let content := contentOrEmpty result.content
    "✅ Settings configured!\n\nConfiguration:\n" ++ jsonDumps content
  else
    "❌ Settings configuration cancelled."

/-! ## setup_preferences -/

/-- The `requestedSchema` dict literal of `setup_preferences`. -/
def setup_preferences_schema : JValue :=
  .jobj [
    ("type", .jstr "object"),
    ("properties", .jobj [
      ("dark_mode", .jobj [
        ("type", .jstr "boolean"),
        ("description", .jstr "Enable dark mode theme"),
        ("default", .jbool false)]),
      ("notifications", .jobj [
        ("type", .jstr "boolean"),
        ("description", .jstr "Enable notifications"),
        ("default", .jbool true)]),
      ("auto_save", .jobj [
        ("type", .jstr "boolean"),
        ("description", .jstr "Auto-save documents"),
        ("default", .jbool true)]),
      ("telemetry", .jobj [
        ("type", .jstr "boolean"),
        ("description", .jstr "Share anonymous usage data"),
        ("default", .jbool false)])])]

/-- The elicitation request `setup_preferences` sends. -/
def setup_preferences_request : ElicitRequest :=
  { message := "Set up your preferences:",
    requestedSchema := some setup_preferences_schema }

/-- The result string `setup_preferences` returns. -/
def setup_preferences_run (result : ElicitResult) : String :=
  if result.action == "accept" then
    let content := contentOrEmpty result.content
    "✅ Preferences saved!\n\nYour preferences:\n" ++ jsonDumps content
  else
    "❌ Preferences setup cancelled."

/-! ## select_option -/

/-- The `requestedSchema` dict literal of `select_option`. -/
def select_option_schema : JValue :=
  .jobj [
    ("type", .jstr "object"),
    ("properties", .jobj [
      ("environment", .jobj [
        ("type", .jstr "string"),
        ("description", .jstr "Deployment environment"),
        ("enum", .jarr [.jstr "development", .jstr "staging", .jstr "production"])]),
      ("region", .jobj [
        ("type", .jstr "string"),
        ("description", .jstr "Server region"),
        ("enum", .jarr [.jstr "us-east", .jstr "us-west", .jstr "eu-west", .jstr "ap-south"])]),
      ("tier", .jobj [
        ("type", .jstr "string"),
        ("description", .jstr "Service tier"),
        ("enum", .jarr [.jstr "free", .jstr "starter", .jstr "professional", .jstr "enterprise"])])]),
    ("required", .jarr [.jstr "environment", .jstr "region"])]

/-- The elicitation request `select_option` sends. -/
def select_option_request : ElicitRequest :=
  { message := "Make your selections:",
    requestedSchema := some select_option_schema }

/-- The result string `select_option` returns. -/
def select_option_run (result : ElicitResult) : String :=
  if result.action == "accept" then
    let content := contentOrEmpty result.content
    "✅ Selection confirmed!\n\nYour choices:\n" ++ jsonDumps content
  else
    "❌ Selection cancelled."

/-! ## visit_documentation -/

/-- The topic-to-URL dict literal of `visit_documentation`. -/
def docs_urls : List (String × String) :=
  [("getting-started", "https://docs.example.com/getting-started"),
   ("api-reference", "https://docs.example.com/api"),
   ("tutorials", "https://docs.example.com/tutorials"),
   ("faq", "https://docs.example.com/faq")]

/-- `docs_urls.get(topic, docs_urls["getting-started"])`. -/
def visit_documentation_url (topic : String) : String :=
  (alookup docs_urls topic).getD ((alookup docs_urls "getting-started").getD "")

/-- The URL elicitation request `visit_documentation` sends
(`elicitation_id` is the fresh uuid, a parameter here). -/
def visit_documentation_request (topic elicitation_id : String) : ElicitRequest :=
  { message := "Please visit the " ++ topic ++
      " documentation and confirm when you're done reading:",
    url := some (visit_documentation_url topic),
    elicitation_id := some elicitation_id }

/-- The result string `visit_documentation` returns. -/
def visit_documentation_run (topic : String) (result : ElicitResult) : String :=
  if result.action == "accept" then
    "✅ Great! You've reviewed the " ++ topic ++ " documentation at:\n" ++
      visit_documentation_url topic ++ "\n\nLet me know if you have any questions!"
  else
    "❌ Documentation review cancelled. The " ++ topic ++ " docs are available at " ++
      visit_documentation_url topic ++ " when you're ready."

/-! ## Generic observations on the constructed schemas -/

mutual

/-- Boolean equality of values (Python `==` on JSON-like data). -/
def JValue.jbeq : JValue → JValue → Bool
  | .jbool a, .jbool b => a == b
  | .jint a, .jint b => a == b
  | .jstr a, .jstr b => a == b
  | .jarr a, .jarr b => jbeqItems a b
  | .jobj a, .jobj b => jbeqPairs a b
  | _, _ => false

/-- Pointwise equality of value lists. -/
def jbeqItems : List JValue → List JValue → Bool
  | [], [] => true
  | a :: as, b :: bs => a.jbeq b && jbeqItems as bs
  | _, _ => false

/-- Pointwise equality of dict entry lists. -/
def jbeqPairs : List (String × JValue) → List (String × JValue) → Bool
  | [], [] => true
  | (k, v) :: as, (k2, v2) :: bs => k == k2 && v.jbeq v2 && jbeqPairs as bs
  | _, _ => false

end

/-- The entries of a dict value (empty for a non-dict). -/
def objFields : JValue → List (String × JValue)
  | .jobj fs => fs
  | _ => []

/-- The `properties` dict of a schema value. -/
def schemaProps (s : JValue) : List (String × JValue) :=
  objFields ((alookup (objFields s) "properties").getD (.jobj []))

/-- The field names a schema's `required` list names. -/
def schemaRequired (s : JValue) : List String :=
  match alookup (objFields s) "required" with
  | some (.jarr vs) =>
      vs.filterMap (fun v => match v with | .jstr n => some n | _ => none)
  | _ => []

/-- The attribute dict of one named property of a schema. -/
def propOf (s : JValue) (name : String) : List (String × JValue) :=
  objFields ((alookup (schemaProps s) name).getD (.jobj []))

/-- One attribute of one named property of a schema. -/
def attrOf (s : JValue) (name attr : String) : Option JValue :=
  alookup (propOf s name) attr

/-- Every name in the schema's `required` list is a key of its
`properties` dict. -/
def requiredDeclared (s : JValue) : Bool :=
  (schemaRequired s).all (fun n => (alookup (schemaProps s) n).isSome)

/-- The property attribute names the spec's wire contract enumerates. -/
def allowedAttrs : List String :=
  ["type", "description", "default", "minimum", "maximum",
   "minLength", "maxLength", "enum"]

/-- Every attribute key of every property of `s` lies in
`allowedAttrs ++ extra`. -/
def propAttrsAllowed (extra : List String) (s : JValue) : Bool :=
  (schemaProps s).all (fun kv =>
    (objFields kv.2).all (fun attr => (allowedAttrs ++ extra).contains attr.1))

/-- The schema value is a dict whose `type` is the string "object" and
which has a `properties` dict, with no top-level keys besides `type`,
`properties` and `required`. -/
def schemaTopShape (s : JValue) : Bool :=
  (match alookup (objFields s) "type" with
   | some (.jstr t) => t == "object"
   | _ => false) &&
  (match alookup (objFields s) "properties" with
   | some (.jobj _) => true
   | _ => false) &&
  (objFields s).all (fun kv => ["type", "properties", "required"].contains kv.1)

/-- The claim's strict shape: `schemaTopShape`, a `required` key
present, and only the eight enumerated property attributes. -/
def schemaShapeStrict (s : JValue) : Bool :=
  schemaTopShape s && (alookup (objFields s) "required").isSome &&
    propAttrsAllowed [] s

/-- The shape the constructed schemas actually have: `required` may be
absent and a property may also carry a `format` attribute. -/
def schemaShapeObserved (s : JValue) : Bool :=
  schemaTopShape s && propAttrsAllowed ["format"] s

/-- A default value fits a declared kind: `boolean`/`integer`/`number`/
`string` against the value's constructor (ints are JSON numbers). -/
def kindOk (kind : String) (v : JValue) : Bool :=
  match kind, v with
  | "boolean", .jbool _ => true
  | "integer", .jint _ => true
  | "number", .jint _ => true
  | "string", .jstr _ => true
  | _, _ => false

/-- A value respects a property's `minimum` bound, when one is declared. -/
def minOk (prop : List (String × JValue)) (v : JValue) : Bool :=
  match alookup prop "minimum", v with
  | none, _ => true
  | some (.jint m), .jint x => m ≤ x
  | some _, _ => false

/-- A value respects a property's `maximum` bound, when one is declared. -/
def maxOk (prop : List (String × JValue)) (v : JValue) : Bool :=
  match alookup prop "maximum", v with
  | none, _ => true
  | some (.jint m), .jint x => x ≤ m
  | some _, _ => false

/-- A value respects a property's `minLength` bound, when one is declared. -/
def minLenOk (prop : List (String × JValue)) (v : JValue) : Bool :=
  match alookup prop "minLength", v with
  | none, _ => true
  | some (.jint m), .jstr s => m ≤ (s.length : Int)
  | some _, _ => false

/-- A value respects a property's `maxLength` bound, when one is declared. -/
def maxLenOk (prop : List (String × JValue)) (v : JValue) : Bool :=
  match alookup prop "maxLength", v with
  | none, _ => true
  | some (.jint m), .jstr s => (s.length : Int) ≤ m
  | some _, _ => false

/-- A value lies in a property's `enum` set, when one is declared. -/
def enumOk (prop : List (String × JValue)) (v : JValue) : Bool :=
  match alookup prop "enum" with
  | none => true
  | some (.jarr vs) => vs.any (fun x => x.jbeq v)
  | some _ => false

/-- A property's `default`, when declared, satisfies the property's own
declared kind and every bound or enum constraint it declares. -/
def defaultOk (prop : List (String × JValue)) : Bool :=
  match alookup prop "default" with
  | none => true
  | some d =>
      (match alookup prop "type" with
       | some (.jstr k) => kindOk k d
       | _ => false) &&
      minOk prop d && maxOk prop d && minLenOk prop d && maxLenOk prop d &&
      enumOk prop d

/-- Every property default of the schema satisfies its own constraints. -/
def schemaDefaultsOk (s : JValue) : Bool :=
  (schemaProps s).all (fun kv => defaultOk (objFields kv.2))

/-- The request targets exactly one of a form schema or a URL. -/
def exactlyOneTarget (r : ElicitRequest) : Bool :=
  (r.requestedSchema.isSome && r.url.isNone) ||
    (r.url.isSome && r.requestedSchema.isNone)

/-- `sub` occurs as a prefix of `rest` (over character lists). -/
def charsStartWith : List Char → List Char → Bool
  | [], _ => true
  | _ :: _, [] => false
  | a :: as, b :: bs => a == b && charsStartWith as bs

/-- `pat` occurs somewhere in `cs`. -/
def charsContain (pat : List Char) : List Char → Bool
  | [] => charsStartWith pat []
  | c :: cs => charsStartWith pat (c :: cs) || charsContain pat cs

/-- `pat` occurs as a contiguous substring of `s`. -/
def strContainsSub (s pat : String) : Bool :=
  charsContain pat.toList s.toList

/-- The schema of `configure_settings` with every property's `default`
attribute removed: what remains of the request schema once the
preset-derived metadata is stripped. -/
def stripDefaults (s : JValue) : JValue :=
  match s with
  | .jobj top => .jobj (top.map (fun kv =>
      if kv.1 == "properties" then
        (kv.1,
         match kv.2 with
         | .jobj props => JValue.jobj (props.map (fun p =>
             (p.1,
              match p.2 with
              | .jobj attrs => JValue.jobj (attrs.filter (fun a => !(a.1 == "default")))
              | v => v)))
         | v => v)
      else kv))
  | v => v

end Elicitation

namespace DhiMCPServer

/-- The tool body of `get_migration_info` in dhi_mcp_server/server.py:
it returns one fixed documentation string and never reads its `image`
argument (the source marks it a placeholder implementation). -/
def get_migration_info (_image : String) : String :=
  "
## How to use this image

Before you can use any Docker Hardened Image, you must mirror the image
repository from the catalog to your organization. To mirror the repository,
select either **Mirror to repository** or **View in repository** > **Mirror to
repository**, and then follow the on-screen instructions.

### Build and run a Node.js application

The recommended way to use this image is to use a multi-stage Dockerfile with
the `dev` variant as the build environment and the runtime variant as the
runtime environment. In your Dockerfile, writing something along the lines of
the following will compile and run a simple project.

At a minimum, replace `docker` with your organization’s namespace. To
confirm the correct namespace and repository name of the mirrored repository,
select **View in repository**.

```
# syntax=docker/dockerfile:1

FROM docker/dhi-node:18-dev AS build-stage

ENV NODE_ENV production
WORKDIR /usr/src/app
RUN --mount=type=bind,source=package.json,target=package.json \\
    --mount=type=bind,source=package-lock.json,target=package-lock.json \\
    --mount=type=cache,target=/root/.npm \\
    npm ci --omit=dev

FROM docker/dhi-node:18 AS runtime-stage

ENV NODE_ENV=production
WORKDIR /usr/src/app
COPY --from=build-stage /usr/src/app/node_modules ./node_modules
COPY src ./src
EXPOSE 3000
CMD [\"src/index.js\"]
```

You can then build and run the Docker image:

```
$ docker build -t my-node-app .
$ docker run --rm -p 3000:3000 --name my-running-app my-node-app
```

## Image variants

Docker Hardened Images come in different variants depending on their intended
use. Image variants are identified by their tag.

- Runtime variants are designed to run your application in production. These
  images are intended to be used either directly or as the `FROM` image in the
  final stage of a multi-stage build. These images typically:
   - Run as a nonroot user
   - Do not include a shell or a package manager
   - Contain only the minimal set of libraries needed to run the app

- Build-time variants typically include `dev` in the tag name and are
  intended for use in the first stage of a multi-stage Dockerfile. These images
  typically:
   - Run as the root user
   - Include a shell and package manager
   - Are used to build or compile applications

To view the image variants and get more information about them, select the
**Tags** tab for this repository, and then select a tag.

## Migrate to a Docker Hardened Image

To migrate your application to a Docker Hardened Image, you must update your
Dockerfile. At minimum, you must update the base image in your existing
Dockerfile to a Docker Hardened Image. This and a few other common changes are
listed in the following table of migration notes.

| Item               | Migration note                                                                                                                                                                                                                                                                                                               |
|:-------------------|:-----------------------------------------------------------------------------------------------------------------------------------------------------------------------------------------------------------------------------------------------------------------------------------------------------------------------------|
| Base image         | Replace your base images in your Dockerfile with a Docker Hardened Image.                                                                                                                                                                                                                                                    |
| Package management | Non-dev images, intended for runtime, don't contain package managers. Use package managers only in images with a `dev` tag.                                                                                                                                                                                                  |
| Nonroot user       | By default, non-dev images, intended for runtime, run as a nonroot user. Ensure that necessary files and directories are accessible to that user.                                                                                                                                                                            |
| Multi-stage build  | Utilize images with a `dev` tag for build stages and non-dev images for runtime. For binary executables, use a `static` image for runtime.                                                                                                                                                                                   |
| TLS certificates   | Docker Hardened Images contain standard TLS certificates by default. There is no need to install TLS certificates.                                                                                                                                                                                                           |
| Ports              | Non-dev hardened images run as a nonroot user by default. As a result, applications in these images can’t bind to privileged ports (below 1024) when running in Kubernetes or in Docker Engine versions older than 20.10. To avoid issues, configure your application to listen on port 1025 or higher inside the container. |
| Entry point        | Docker Hardened Images may have different entry points than images such as Docker Official Images. Inspect entry points for Docker Hardened Images and update your Dockerfile if necessary.                                                                                                                                  |
| No shell           | By default, non-dev images, intended for runtime, don't contain a shell. Use dev images in build stages to run shell commands and then copy artifacts to the runtime stage.                                                                                                                                                  |

The following steps outline the general migration process.

1. Find hardened images for your app.

   A hardened image may have several variants. Inspect the image tags and find
   the image variant that meets your needs.

2. Update the base image in your Dockerfile.

   Update the base image in your application's Dockerfile to the hardened image
   you found in the previous step. For framework images, this is typically going
   to be an image tagged as `dev` because it has the tools needed to install
   packages and dependencies.

3. For multi-stage Dockerfiles, update the runtime image in your Dockerfile.

   To ensure that your final image is as minimal as possible, you should use a
   multi-stage build. All stages in your Dockerfile should use a hardened image.
   While intermediary stages will typically use images tagged as `dev`, your
   final runtime stage should use a non-dev image variant.

4. Install additional packages

   Docker Hardened Images contain minimal packages in order to reduce the
   potential attack surface. You may need to install additional packages in your
   Dockerfile. To view if a package manager is available for an image variant,
   select the **Tags** tab for this repository. To view what packages are
   already installed in an image variant, select the **Tags** tab for this
   repository, and then select a tag.

   Only images tagged as `dev` typically have package managers. You should use a
   multi-stage Dockerfile to install the packages. Install the packages in the
   build stage that uses a `dev` image. Then, if needed, copy any necessary
   artifacts to the runtime stage that uses a non-dev image.

   For Alpine-based images, you can use `apk` to install packages. For
   Debian-based images, you can use `apt-get` to install packages.

## Troubleshooting migration

The following are common issues that you may encounter during migration.

### General debugging

The hardened images intended for runtime don't contain a shell nor any tools for
debugging. The recommended method for debugging applications built with Docker
Hardened Images is to use [Docker
Debug](https://docs.docker.com/reference/cli/docker/debug/) to attach to these
containers. Docker Debug provides a shell, common debugging tools, and lets you
install other tools in an ephemeral, writable layer that only exists during the
debugging session.

### Permissions

By default image variants intended for runtime, run as a nonroot user. Ensure
that necessary files and directories are accessible to that user. You may
need to copy files to different directories or change permissions so your
application running as a nonroot user can access them.

 To view the user for an image variant, select the **Tags** tab for this
 repository.

### Privileged ports

Non-dev hardened images run as a nonroot user by default. As a result,
applications in these images can't bind to privileged ports (below 1024) when
running in Kubernetes or in Docker Engine versions older than 20.10. To avoid
issues, configure your application to listen on port 1025 or higher inside the
container, even if you map it to a lower port on the host. For example, `docker
run -p 80:8080 my-image` will work because the port inside the container is 8080,
and `docker run -p 80:81 my-image` won't work because the port inside the
container is 81.

### No shell

By default, image variants intended for runtime don't contain a shell. Use `dev`
images in build stages to run shell commands and then copy any necessary
artifacts into the runtime stage. In addition, use Docker Debug to debug
containers with no shell.

 To see if a shell is available in an image variant and which one, select the
 **Tags** tab for this repository.

### Entry point

Docker Hardened Images may have different entry points than images such as
Docker Official Images.

To view the Entrypoint or CMD defined for an image variant, select the **Tags**
tab for this repository, select a tag, and then select the **Specifications**
tab.

IMPOTANT: NEVER USE \"node\" in the CMD or ENTRYPOINT of your Dockerfile. ONLY use 
the path to your application
"

end DhiMCPServer

/-! ## Theorems settling the claims -/

namespace Elicitation

/-- The three preset dict literals, named for case analysis. -/
def defaultPresetValues : ConfigDefaults :=
  { max_connections := 10, timeout := 30, retry_count := 3 }

/-- The `performance` preset dict literal. -/
def performancePresetValues : ConfigDefaults :=
  { max_connections := 100, timeout := 5, retry_count := 1 }

/-- The `reliable` preset dict literal. -/
def reliablePresetValues : ConfigDefaults :=
  { max_connections := 5, timeout := 60, retry_count := 5 }

/-- Whatever the preset string, `configure_settings` starts from one of
the three preset dicts (unrecognized presets fall back to the first). -/
theorem configure_defaults_cases (preset : String) :
    configure_defaults preset = defaultPresetValues ∨
    configure_defaults preset = performancePresetValues ∨
    configure_defaults preset = reliablePresetValues := by
  simp only [configure_defaults, preset_table, alookup, defaultPresetValues,
    performancePresetValues, reliablePresetValues]
  repeat' split
  all_goals simp

/-- C1 (counterexample): a `decline` response to `create_user` is
answered with the tool's cancellation text, which contains no
"declined"; the same string answers a `cancel` response.  The source
branches only on `action == "accept"`, lumping decline with cancel. -/
theorem C1_declined_counterexample :
    create_user_run { action := "decline" } = "❌ User creation cancelled." ∧
    strContainsSub (create_user_run { action := "decline" }) "declined" = false ∧
    create_user_run { action := "decline" } = create_user_run { action := "cancel" } :=
  ⟨rfl, by decide, rfl⟩

/-- C1 (amended): for every tool, a Declined elicitation produces the
same user-visible non-error result string as a Cancelled one — the
tools' "cancelled" text; no tool produces distinct "declined" text for
a declined elicitation (the "Action declined" text of `confirm_action`
arises only from an accepted response without a true `confirmed`
field). -/
theorem C1_decline_cancel_same_result (action topic : String)
    (c : Option (List (String × JValue))) :
    confirm_action_run action { action := "decline", content := c } =
      confirm_action_run action { action := "cancel", content := c } ∧
    create_user_run { action := "decline", content := c } =
      create_user_run { action := "cancel", content := c } ∧
    configure_settings_run { action := "decline", content := c } =
      configure_settings_run { action := "cancel", content := c } ∧
    setup_preferences_run { action := "decline", content := c } =
      setup_preferences_run { action := "cancel", content := c } ∧
    select_option_run { action := "decline", content := c } =
      select_option_run { action := "cancel", content := c } ∧
    visit_documentation_run topic { action := "decline", content := c } =
      visit_documentation_run topic { action := "cancel", content := c } ∧
    confirm_action_run action { action := "decline", content := c } =
      "⚠️ Confirmation cancelled for: " ++ action ∧
    create_user_run { action := "decline", content := c } =
      "❌ User creation cancelled." :=
  ⟨rfl, rfl, rfl, rfl, rfl, rfl, rfl, rfl⟩

/-- C2 (counterexample): under the `performance` preset the schema of
`configure_settings` declares `retry_count` with default 1, not 3. -/
theorem C2_performance_default_counterexample :
    attrOf (configure_settings_schema "performance") "retry_count" "default" =
      some (.jint 1) ∧
    attrOf (configure_settings_schema "performance") "retry_count" "default" ≠
      some (.jint 3) := by
  refine ⟨rfl, ?_⟩
  intro h
  simp only [attrOf, propOf, schemaProps, configure_settings_schema,
    configure_settings_schema_of, configure_defaults, preset_table, alookup,
    objFields, Option.getD] at h
  simp at h

/-- C2 (amended): for every preset argument, the schema of
`configure_settings` declares `max_connections` as an integer bounded
to [1,100], `timeout` as a number bounded to [1,300], `retry_count` as
an integer bounded to [0,10] whose default is the selected preset's
`retry_count` value (3 under the `default` preset), and its required
set is exactly max_connections and timeout. -/
theorem C2_configure_settings_schema_amended (preset : String) :
    attrOf (configure_settings_schema preset) "max_connections" "type" =
      some (.jstr "integer") ∧
    attrOf (configure_settings_schema preset) "max_connections" "minimum" =
      some (.jint 1) ∧
    attrOf (configure_settings_schema preset) "max_connections" "maximum" =
      some (.jint 100) ∧
    attrOf (configure_settings_schema preset) "timeout" "type" =
      some (.jstr "number") ∧
    attrOf (configure_settings_schema preset) "timeout" "minimum" =
      some (.jint 1) ∧
    attrOf (configure_settings_schema preset) "timeout" "maximum" =
      some (.jint 300) ∧
    attrOf (configure_settings_schema preset) "retry_count" "type" =
      some (.jstr "integer") ∧
    attrOf (configure_settings_schema preset) "retry_count" "minimum" =
      some (.jint 0) ∧
    attrOf (configure_settings_schema preset) "retry_count" "maximum" =
      some (.jint 10) ∧
    attrOf (configure_settings_schema preset) "retry_count" "default" =
      some (.jint (configure_defaults preset).retry_count) ∧
    (configure_defaults "default").retry_count = 3 ∧
    schemaRequired (configure_settings_schema preset) =
      ["max_connections", "timeout"] :=
  ⟨rfl, rfl, rfl, rfl, rfl, rfl, rfl, rfl, rfl, rfl, rfl, rfl⟩

/-- C3: for every preset, the preset's three values enter the request
only as the `default` attributes of the schema (stripping the `default`
attributes leaves a schema independent of the preset), and an accepted
payload is echoed back verbatim in the result, a function of the
payload alone, never checked or filled against the preset's values. -/
theorem C3_presets_default_metadata_only (p q : String) (c : List (String × JValue)) :
    attrOf (configure_settings_schema p) "max_connections" "default" =
      some (.jint (configure_defaults p).max_connections) ∧
    attrOf (configure_settings_schema p) "timeout" "default" =
      some (.jint (configure_defaults p).timeout) ∧
    attrOf (configure_settings_schema p) "retry_count" "default" =
      some (.jint (configure_defaults p).retry_count) ∧
    stripDefaults (configure_settings_schema p) =
      stripDefaults (configure_settings_schema q) ∧
    configure_settings_run { action := "accept", content := some c } =
      "✅ Settings configured!\n\nConfiguration:\n" ++ jsonDumps c :=
  ⟨rfl, rfl, rfl, rfl, rfl⟩

/-- C4 (counterexample): the `email` property of `create_user` carries a
`format` attribute outside the claim's enumerated attribute set, and the
schema of `confirm_action` has no `required` key at all. -/
theorem C4_shape_counterexample :
    allowedAttrs.contains "format" = false ∧
    attrOf create_user_schema "email" "format" = some (.jstr "email") ∧
    propAttrsAllowed [] create_user_schema = false ∧
    alookup (objFields confirm_action_schema) "required" = none ∧
    schemaShapeStrict confirm_action_schema = false :=
  ⟨by decide, rfl, by decide, rfl, by decide⟩

/-- C4 (amended): every form-elicitation schema any tool constructs is
an object schema of shape type:"object" with a `properties` dict and an
optional `required` list, and each property carries only attributes
from the set type, description, default, minimum, maximum, minLength,
maxLength, enum and format. -/
theorem C4_schema_shape_amended (preset : String) :
    schemaShapeObserved confirm_action_schema = true ∧
    schemaShapeObserved create_user_schema = true ∧
    schemaShapeObserved (configure_settings_schema preset) = true ∧
    schemaShapeObserved setup_preferences_schema = true ∧
    schemaShapeObserved select_option_schema = true :=
  ⟨by decide, by decide, rfl, by decide, by decide⟩

/-- C5: every elicitation request any tool constructs carries either a
form schema or a URL, never both. -/
theorem C5_request_tagged_union (action preset topic eid : String) :
    exactlyOneTarget (confirm_action_request action) = true ∧
    exactlyOneTarget create_user_request = true ∧
    exactlyOneTarget (configure_settings_request preset) = true ∧
    exactlyOneTarget setup_preferences_request = true ∧
    exactlyOneTarget select_option_request = true ∧
    exactlyOneTarget (visit_documentation_request topic eid) = true :=
  ⟨rfl, rfl, rfl, rfl, rfl, rfl⟩

/-- C6: in every schema any tool constructs, every field name of the
`required` list is a key of the `properties` dict. -/
theorem C6_required_subset_of_properties (preset : String) :
    requiredDeclared confirm_action_schema = true ∧
    requiredDeclared create_user_schema = true ∧
    requiredDeclared (configure_settings_schema preset) = true ∧
    requiredDeclared setup_preferences_schema = true ∧
    requiredDeclared select_option_schema = true :=
  ⟨by decide, by decide, rfl, by decide, by decide⟩

/-- C7: in every schema any tool constructs, under every preset
(unrecognized ones included), every `default` attribute present
satisfies its own property's kind and bound constraints. -/
theorem C7_defaults_satisfy_constraints (preset : String) :
    schemaDefaultsOk confirm_action_schema = true ∧
    schemaDefaultsOk create_user_schema = true ∧
    schemaDefaultsOk (configure_settings_schema preset) = true ∧
    schemaDefaultsOk setup_preferences_schema = true ∧
    schemaDefaultsOk select_option_schema = true := by
  refine ⟨by decide, by decide, ?_, by decide, by decide⟩
  rcases configure_defaults_cases preset with h | h | h <;>
    · simp only [configure_settings_schema, h]
      decide

/-- C8: an accepted `confirm_action` elicitation whose content is
absent, or whose `confirmed` field is missing or not a (truthy) true
value, yields the "Action declined" result string rather than an error;
and every form tool substitutes the empty mapping for absent accepted
content. -/
theorem C8_accept_without_confirmed_declines (action : String)
    (c : List (String × JValue))
    (h : (pyGet c "confirmed" (.jbool false)).truthy = false) :
    confirm_action_run action { action := "accept", content := some c } =
      "❌ Action declined: " ++ action ∧
    confirm_action_run action { action := "accept" } =
      "❌ Action declined: " ++ action ∧
    confirm_action_run action { action := "accept" } =
      confirm_action_run action { action := "accept", content := some [] } ∧
    create_user_run { action := "accept" } =
      create_user_run { action := "accept", content := some [] } ∧
    configure_settings_run { action := "accept" } =
      configure_settings_run { action := "accept", content := some [] } ∧
    setup_preferences_run { action := "accept" } =
      setup_preferences_run { action := "accept", content := some [] } ∧
    select_option_run { action := "accept" } =
      select_option_run { action := "accept", content := some [] } := by
  refine ⟨?_, rfl, rfl, rfl, rfl, rfl, rfl⟩
  simp [confirm_action_run, contentOrEmpty, h]

/-- C8 witness: content `{confirmed: false}` for action "deploy". -/
theorem C8_accept_without_confirmed_declines_witness :
    (pyGet [("confirmed", JValue.jbool false)] "confirmed" (.jbool false)).truthy
      = false ∧
    (confirm_action_run "deploy"
        { action := "accept", content := some [("confirmed", JValue.jbool false)] } =
      "❌ Action declined: " ++ "deploy" ∧
    confirm_action_run "deploy" { action := "accept" } =
      "❌ Action declined: " ++ "deploy" ∧
    confirm_action_run "deploy" { action := "accept" } =
      confirm_action_run "deploy" { action := "accept", content := some [] } ∧
    create_user_run { action := "accept" } =
      create_user_run { action := "accept", content := some [] } ∧
    configure_settings_run { action := "accept" } =
      configure_settings_run { action := "accept", content := some [] } ∧
    setup_preferences_run { action := "accept" } =
      setup_preferences_run { action := "accept", content := some [] } ∧
    select_option_run { action := "accept" } =
      select_option_run { action := "accept", content := some [] }) :=
  ⟨by decide,
   C8_accept_without_confirmed_declines "deploy"
     [("confirmed", JValue.jbool false)] (by decide)⟩

/-- C9: for every topic outside the four documented ones, the URL
elicitation of `visit_documentation` targets the getting-started URL,
and that URL appears verbatim in the returned result string whatever
the elicitation outcome. -/
theorem C9_unknown_topic_getting_started (topic eid : String) (r : ElicitResult)
    (h : alookup docs_urls topic = none) :
    (visit_documentation_request topic eid).url =
      some "https://docs.example.com/getting-started" ∧
    ∃ pre post, visit_documentation_run topic r =
      pre ++ "https://docs.example.com/getting-started" ++ post := by
  have hu : visit_documentation_url topic =
      "https://docs.example.com/getting-started" := by
    simp only [visit_documentation_url, h, Option.getD_none]
    rfl
  constructor
  · simp only [visit_documentation_request]
    rw [hu]
  · by_cases ha : (r.action == "accept") = true
    · exact ⟨"✅ Great! You've reviewed the " ++ topic ++ " documentation at:\n",
        "\n\nLet me know if you have any questions!", by
          simp only [visit_documentation_run, ha, if_true, hu]⟩
    · exact ⟨"❌ Documentation review cancelled. The " ++ topic ++
          " docs are available at ",
        " when you're ready.", by
          simp [visit_documentation_run, ha, hu]⟩

/-- C9 witness: the unrecognized topic "changelog". -/
theorem C9_unknown_topic_getting_started_witness :
    alookup docs_urls "changelog" = none ∧
    ((visit_documentation_request "changelog" "id-1").url =
      some "https://docs.example.com/getting-started" ∧
    ∃ pre post,
      visit_documentation_run "changelog" { action := "accept" } =
        pre ++ "https://docs.example.com/getting-started" ++ post) :=
  ⟨by decide,
   C9_unknown_topic_getting_started "changelog" "id-1" { action := "accept" }
     (by decide)⟩

end Elicitation

/-- C10: `get_migration_info` returns the identical documentation
string for every pair of image arguments: its output is a constant,
independent of the `image` input. -/
theorem DhiMCPServer.C10_migration_info_constant (image1 image2 : String) :
    DhiMCPServer.get_migration_info image1 =
      DhiMCPServer.get_migration_info image2 :=
  rfl
